import Mathlib

/-
  Verification development for the mirror-based timeline crawler
  (source: src/main.py).

  The Python source is shallowly embedded: pure helpers become Lean
  functions, the stateful crawl loop becomes explicit state passing with a
  fuel parameter, and Python exceptions become an explicit error type
  carried in Except.  Machine-level details that no claim touches
  (actual network I/O, the HTML tree library, the MEGA client) are
  abstracted into oracle parameters; the control flow and data flow of the
  source functions are reproduced statement by statement.
-/

/- A Python exception, as far as the embedded fragments can raise one.
   TypeError arises from passing None where a str is required
   (for example str + None, or html.unescape(None)); ValueError arises
   from datetime(...) receiving out-of-range components. -/
inductive PyError where
  | typeError
  | valueError
deriving DecidableEq, Repr

instance {ε α : Type} [DecidableEq ε] [DecidableEq α] : DecidableEq (Except ε α)
  | Except.error e, Except.error f =>
    match decEq e f with
    | isTrue h => isTrue (by rw [h])
    | isFalse h => isFalse (fun hh => h (Except.error.inj hh))
  | Except.error _, Except.ok _ => isFalse (fun hh => Except.noConfusion hh)
  | Except.ok _, Except.error _ => isFalse (fun hh => Except.noConfusion hh)
  | Except.ok a, Except.ok b =>
    match decEq a b with
    | isTrue h => isTrue (by rw [h])
    | isFalse h => isFalse (fun hh => h (Except.ok.inj hh))

/- ---------------------------------------------------------------------
   Timestamp parsing (_parse_tweet_date, TWEET_DATE_PATTERN, MONTHS)
   --------------------------------------------------------------------- -/

/- MONTHS = ["jan", ..., "dec"] from the source. -/
def MONTHS : List String :=
  ["jan", "feb", "mar", "apr", "may", "jun", "jul", "aug", "sep", "oct", "nov", "dec"]

/- Python re's word character, restricted to ASCII (every input the
   pipeline handles is ASCII; the month is lower-cased and checked against
   the ASCII table MONTHS afterwards, so non-ASCII word characters can
   only ever reach the not-a-known-month fallback). -/
def isWordChar (c : Char) : Bool := c.isAlphanum || c = '_'

def digitVal (c : Char) : Nat := c.toNat - '0'.toNat

/- Python str.lower(), on the ASCII range (the month group is matched
   from word characters and compared against the ASCII table MONTHS, so
   only the ASCII case mapping can influence the comparison). -/
def charLower (c : Char) : Char :=
  if 'A' ≤ c ∧ c ≤ 'Z' then Char.ofNat (c.toNat + 32) else c

def strLower (s : String) : String := String.mk (s.data.map charLower)

/- Python str.strip(): drop whitespace from both ends. -/
def strTrim (s : String) : String :=
  String.mk (((s.data.dropWhile Char.isWhitespace).reverse.dropWhile
    Char.isWhitespace).reverse)

/- The named groups of TWEET_DATE_PATTERN, with int() already applied to
   the digit groups (int() cannot fail on strings of ASCII digits). -/
structure DateGroups where
  month : String
  day : Nat
  year : Nat
  hour : Nat
  minute : Nat
  ampm : String
deriving DecidableEq, Repr

/- The tail of TWEET_DATE_PATTERN after the hour:
   :(?P<minute>\d\d) (?P<ampm>AM|PM) UTC$
   The Python $ also matches just before one trailing newline. -/
def matchMinuteAmPm (month : String) (day year hour : Nat) :
    List Char → Option DateGroups
  | n1 :: n2 :: ' ' :: a :: 'M' :: ' ' :: 'U' :: 'T' :: 'C' :: rest =>
    if n1.isDigit ∧ n2.isDigit ∧ (a = 'A' ∨ a = 'P') ∧ (rest = [] ∨ rest = ['\n']) then
      some ⟨month, day, year, hour, 10 * digitVal n1 + digitVal n2,
            if a = 'P' then "PM" else "AM"⟩
    else none
  | _ => none

/- (?P<hour>[01]?\d): with re's backtracking resolved: a two-digit hour
   needs a leading 0 or 1 and a colon after the second digit; otherwise a
   single digit directly followed by the colon. -/
def matchHourPart (month : String) (day year : Nat) : List Char → Option DateGroups
  | c1 :: c2 :: rest2 =>
    if (c1 = '0' ∨ c1 = '1') ∧ c2.isDigit then
      match rest2 with
      | ':' :: rest => matchMinuteAmPm month day year (10 * digitVal c1 + digitVal c2) rest
      | _ => none
    else if c1.isDigit ∧ c2 = ':' then
      matchMinuteAmPm month day year (digitVal c1) rest2
    else none
  | _ => none

/- (?P<year>\d{4}) followed by the literal " · " separator. -/
def matchYearPart (month : String) (day : Nat) : List Char → Option DateGroups
  | y1 :: y2 :: y3 :: y4 :: ' ' :: '·' :: ' ' :: rest =>
    if y1.isDigit ∧ y2.isDigit ∧ y3.isDigit ∧ y4.isDigit then
      matchHourPart month day
        (1000 * digitVal y1 + 100 * digitVal y2 + 10 * digitVal y3 + digitVal y4) rest
    else none
  | _ => none

/- (?P<day>\d\d?), followed by ", ".  Backtracking resolved: a two-digit
   day must be followed by the comma; a one-digit day has the comma as its
   second character. -/
def matchDayPart (month : String) : List Char → Option DateGroups
  | c1 :: c2 :: rest2 =>
    if c1.isDigit ∧ c2.isDigit then
      match rest2 with
      | ',' :: ' ' :: rest => matchYearPart month (10 * digitVal c1 + digitVal c2) rest
      | _ => none
    else if c1.isDigit ∧ c2 = ',' then
      match rest2 with
      | ' ' :: rest => matchYearPart month (digitVal c1) rest
      | _ => none
    else none
  | _ => none

/- TWEET_DATE_PATTERN.match(s): anchored at the start;
   ^(?P<month>\w{3}) then the rest of the groups. -/
def matchTweetDateChars : List Char → Option DateGroups
  | m1 :: m2 :: m3 :: ' ' :: rest =>
    if isWordChar m1 ∧ isWordChar m2 ∧ isWordChar m3 then
      matchDayPart (String.mk [m1, m2, m3]) rest
    else none
  | _ => none

def tweetDateMatch (s : String) : Option DateGroups :=
  matchTweetDateChars s.data

/- A timezone-aware Python datetime in UTC.  Every datetime the source
   builds carries tzinfo=timezone.utc, so the timezone is left implicit;
   seconds and microseconds are always zero. -/
structure PyDatetime where
  year : Nat
  month : Nat
  day : Nat
  hour : Nat
  minute : Nat
deriving DecidableEq, Repr

def isLeapYear (y : Nat) : Bool := (y % 4 = 0 ∧ y % 100 ≠ 0) ∨ y % 400 = 0

def daysInMonth (y m : Nat) : Nat :=
  if m = 2 then (if isLeapYear y then 29 else 28)
  else if m = 4 ∨ m = 6 ∨ m = 9 ∨ m = 11 then 30
  else 31

/- datetime(year=..., month=..., day=..., hour=..., minute=..., tzinfo=utc):
   validates each component (MINYEAR = 1, MAXYEAR = 9999) and raises
   ValueError on any out-of-range value. -/
def datetimeUtc (year month day hour minute : Nat) : Except PyError PyDatetime :=
  if 1 ≤ year ∧ year ≤ 9999 ∧ 1 ≤ month ∧ month ≤ 12 ∧
     1 ≤ day ∧ day ≤ daysInMonth year month ∧ hour ≤ 23 ∧ minute ≤ 59 then
    Except.ok ⟨year, month, day, hour, minute⟩
  else Except.error PyError.valueError

/- datetime.fromtimestamp(0, tz=timezone.utc). -/
def epochUtc : PyDatetime := ⟨1970, 1, 1, 0, 0⟩

/- html.unescape applied to the result of element.get("title"):
   get returns None when the attribute is absent, and unescape(None)
   raises TypeError.  On actual strings it is modelled as the identity:
   every title this development evaluates it on contains no character
   reference, and html.unescape is the identity on such strings. -/
def htmlUnescapeAttr : Option String → Except PyError String
  | none => Except.error PyError.typeError
  | some s => Except.ok s

/- _parse_tweet_date, starting from the result of the two DOM lookups:
   dateLink = None models a tweet without a ".tweet-date > a" element;
   some title models the element with its (possibly absent) title
   attribute. -/
def parse_tweet_date (dateLink : Option (Option String)) : Except PyError PyDatetime :=
  match dateLink with
  | none => Except.ok epochUtc
  | some titleAttr =>
    match htmlUnescapeAttr titleAttr with
    | Except.error e => Except.error e
    | Except.ok tweetDate =>
      match tweetDateMatch tweetDate with
      | none => Except.ok epochUtc
      | some g =>
        let hour := g.hour + (if g.ampm = "PM" ∧ g.hour ≠ 12 then 12 else 0)
        let month := strLower g.month
        if month ∈ MONTHS then
          datetimeUtc g.year (MONTHS.indexOf month + 1) g.day hour g.minute
        else Except.ok epochUtc

/- ---------------------------------------------------------------------
   Markup extraction (_parse_tweet_element and its helpers)

   A tweet element is abstracted to the results of the CSS queries the
   source performs on it: each field holds what _safe_select (plus the
   attribute access) would return, with the outer Option for "no element
   matched" and the inner Option for "attribute absent / text absent".
   --------------------------------------------------------------------- -/

structure SourceEl where
  src : Option String
deriving DecidableEq, Repr

structure VideoEl where
  poster : Option String
  dataUrl : Option String
  sources : List SourceEl
deriving DecidableEq, Repr

structure AttachmentsEl where
  stillImageHrefs : List (Option String)
  gifSourceSrcs : List (Option String)
  video : Option VideoEl
deriving DecidableEq, Repr

structure TweetEl where
  tweetLinkHref : Option (Option String)
  fullnameText : Option (Option String)
  dateTitle : Option (Option String)
  contentHtml : Option String
  attachments : Option AttachmentsEl
deriving DecidableEq, Repr

structure TweetElementWithInstance where
  instance_url : String
  element : TweetEl
deriving DecidableEq, Repr

structure TweetData where
  link : String
  author_fullname : Option String
  timestamp : PyDatetime
  text_html : String
  text_plain : String
  photo_urls : List String
  gif_urls : List String
  video_url : String
  videothumb_url : String
deriving DecidableEq, Repr

/- _parse_tweet_link: '' when no ".tweet-link" matches, TypeError when the
   element lacks an href (instance_url + None), otherwise the
   instance-qualified href. -/
def parse_tweet_link (te : TweetElementWithInstance) : Except PyError String :=
  match te.element.tweetLinkHref with
  | none => Except.ok ""
  | some none => Except.error PyError.typeError
  | some (some href) => Except.ok (te.instance_url ++ href)

/- _parse_tweet_author: '' when no "a.fullname" matches, otherwise the
   element's text (which lxml reports as None for an empty element). -/
def parse_tweet_author (te : TweetElementWithInstance) : Option String :=
  match te.element.fullnameText with
  | none => some ""
  | some t => t

/- HtmlStripper: keep only character data outside tags.  (The HTMLParser
   base class also decodes character references; no claim involves
   markup containing one.) -/
def stripChars : List Char → Bool → List Char
  | [], _ => []
  | c :: cs, inTag =>
    if c = '<' then stripChars cs true
    else if c = '>' then stripChars cs false
    else if inTag then stripChars cs inTag
    else c :: stripChars cs inTag

def stripHtmlTags (s : String) : String := String.mk (stripChars s.data false)

/- _parse_tweet_text: contentHtml models etree.tostring of the matched
   content div. -/
def parse_tweet_text (te : TweetElementWithInstance) : String × String :=
  match te.element.contentHtml with
  | none => ("", "")
  | some s =>
    let tweetHtml := strTrim s
    (tweetHtml, strTrim (stripHtmlTags tweetHtml))

/- The generator body of _parse_tweet_photos: each "a.still-image" link's
   href, instance-qualified; a link without an href raises TypeError when
   the generator reaches it. -/
def qualifyHrefs (inst : String) : List (Option String) → Except PyError (List String)
  | [] => Except.ok []
  | none :: _ => Except.error PyError.typeError
  | some h :: rest =>
    match qualifyHrefs inst rest with
    | Except.error e => Except.error e
    | Except.ok us => Except.ok ((inst ++ h) :: us)

def parse_tweet_photos (te : TweetElementWithInstance) : Except PyError (List String) :=
  match te.element.attachments with
  | none => Except.ok []
  | some att => qualifyHrefs te.instance_url att.stillImageHrefs

/- _parse_tweet_gifs: "video.gif source" elements; entries whose src is
   absent are skipped by the explicit None check in the source. -/
def parse_tweet_gifs (te : TweetElementWithInstance) : List String :=
  match te.element.attachments with
  | none => []
  | some att => att.gifSourceSrcs.filterMap (fun s => s.map (fun u => te.instance_url ++ u))

/- _parse_tweet_video: first video element of the attachments container;
   data-url if present, else the src of its first nested source element;
   instance-qualified together with the poster attribute.  Concatenating
   a still-absent URL or poster raises TypeError (str + None). -/
def parse_tweet_video (te : TweetElementWithInstance) : Except PyError (String × String) :=
  match te.element.attachments with
  | none => Except.ok ("", "")
  | some att =>
    match att.video with
    | none => Except.ok ("", "")
    | some v =>
      let posterUrl := v.poster
      let videoUrl :=
        match v.dataUrl with
        | some u => some u
        | none =>
          match v.sources.head? with
          | none => none
          | some se => se.src
      match videoUrl, posterUrl with
      | some vu, some pu => Except.ok (te.instance_url ++ vu, te.instance_url ++ pu)
      | _, _ => Except.error PyError.typeError

/- _parse_tweet_element: the TweetData namedtuple, with the components
   evaluated in source order and the first exception propagating.  (The
   source stores timestamp.isoformat(); the datetime itself is kept
   here.) -/
def parse_tweet_element (te : TweetElementWithInstance) : Except PyError TweetData := do
  let link ← parse_tweet_link te
  let author := parse_tweet_author te
  let date ← parse_tweet_date te.element.dateTitle
  let text := parse_tweet_text te
  let photos ← parse_tweet_photos te
  let gifs := parse_tweet_gifs te
  let video ← parse_tweet_video te
  return ⟨link, author, date, text.1, text.2, photos, gifs, video.1, video.2⟩

/- ---------------------------------------------------------------------
   NitterInstanceSwitcher
   --------------------------------------------------------------------- -/

/- The pre-seeded bad_instances set from the source (Cloudflare or
   media-distorting mirrors). -/
def initialBadInstances : List String :=
  ["nitter.domain.glass", "nitter.winscloud.net", "twtr.bch.bar",
   "twitter.dr460nf1r3.org", "nitter.garudalinux.org", "nitter.rawbit.ninja",
   "nitter.privacytools.io", "nitter.sneed.network", "n.sneed.network",
   "nitter.d420.de", "nitter.caioalonso.com"]

def usInstancesWithAgeRestricted : List String :=
  ["birdsite.xanny.family", "tweet.lambda.dance", "nitter.pw"]

/- The mutable class attributes of NitterInstanceSwitcher. -/
structure SwitcherState where
  switches : Nat
  currentInstance : String
  badInstances : List String
  usOnly : Bool
deriving DecidableEq, Repr

/- str.removeprefix("https://"): drop the 8 scheme characters when they
   lead the string. -/
def removeHttpsScheme (s : String) : String :=
  if "https://".data.isPrefixOf s.data then String.mk (s.data.drop 8) else s

/- NitterInstanceSwitcher.add_bad_instance: set.add on the hostname. -/
def add_bad_instance (instanceUrl : String) (bad : List String) : List String :=
  if removeHttpsScheme instanceUrl ∈ bad then bad
  else removeHttpsScheme instanceUrl :: bad

/- NitterInstanceSwitcher.new.  One discovery attempt (_get_random or
   _get_random_us) is abstracted into one entry of the candidate list:
   none models a request failure / non-ok response (the Python False),
   some h the hostname resolved from the response.  The source retries by
   unbounded recursion; the recursion here is on the finite candidate
   list, and running out of candidates (the liveness risk the spec
   records) yields none. -/
def switcher_new : List (Option String) → SwitcherState → Option (String × SwitcherState)
  | [], _ => none
  | c :: rest, st =>
    match c with
    | none => switcher_new rest st
    | some hostname =>
      if hostname = "" ∨ hostname ∈ st.badInstances ∨
         (st.usOnly = true ∧ hostname ∈ usInstancesWithAgeRestricted) then
        switcher_new rest st
      else
        some ("https://" ++ hostname,
              { st with switches := st.switches + 1,
                        currentInstance := "https://" ++ hostname })

/- ---------------------------------------------------------------------
   _fetch_tweet_elements: the crawl loop
   --------------------------------------------------------------------- -/

/- One element matched by the tweet selector
   "div.timeline div.timeline-item:not(.show-more)"; isRetweet models
   whether _safe_select finds a "div.retweet-header" inside it. -/
structure TweetItem where
  id : Nat
  isRetweet : Bool
deriving DecidableEq, Repr

inductive FetchSource where
  | MEDIA
  | SEARCH
deriving DecidableEq, Repr

/- What one page fetch produces once response.raise_for_status() has
   passed: parseError models etree.fromstring raising XMLSyntaxError;
   otherwise the parsed page with its "enable HLS" form (the
   feature-disabled symptom), its tweet elements, and the optional
   "show more" link href (the pagination cursor). -/
inductive PageFetch where
  | parseError
  | page (hlsDisabled : Bool) (items : List TweetItem) (showmore : Option String)

/- The loop-local state of _fetch_tweet_elements. -/
structure FetchState where
  pagecount : Int
  instanceUrl : String
  pagesUntilSwitch : Int
  cursor : String
  switcher : SwitcherState
deriving DecidableEq, Repr

/- Loop entry: pagecount = 0, instance_url = '',
   pages_until_instanceswitch = 0, cursor = ''; the switcher state
   reflects main's configuration (us_instances_only = True) and the
   pre-seeded bad set. -/
def initialFetchState : FetchState :=
  ⟨0, "", 0, "", ⟨0, "", initialBadInstances, true⟩⟩

/- The head of one loop iteration: pagecount += 1,
   pages_until_instanceswitch -= 1, and the instance switch when the
   counter has run out.  none only when the candidate supply for
   switcher_new is exhausted. -/
def rotationStep (cands : List (Option String)) (st : FetchState) : Option FetchState :=
  let pc := st.pagecount + 1
  let p := st.pagesUntilSwitch - 1
  if p ≤ 0 then
    match switcher_new cands st.switcher with
    | none => none
    | some (url, sw) => some ⟨pc, url, 3, st.cursor, sw⟩
  else
    some ⟨pc, st.instanceUrl, p, st.cursor, st.switcher⟩

/- The bad-mirror symptom handler, shared by the XMLSyntaxError branch and
   the HLS-disabled branch: add_bad_instance(instance_url);
   pages_until_instanceswitch = 0; pagecount -= 1; continue (the cursor is
   left untouched, so the same logical page is requested again). -/
def markBadAndForce (st : FetchState) : FetchState :=
  { st with
      switcher := { st.switcher with
        badInstances := add_bad_instance st.instanceUrl st.switcher.badInstances },
      pagesUntilSwitch := 0,
      pagecount := st.pagecount - 1 }

inductive StepResult where
  | stuck
  | retry (st : FetchState)
  | emit (items : List TweetItem) (st : FetchState) (done : Bool)
deriving DecidableEq, Repr

/- One full iteration of the while loop.  The server oracle maps
   (instance_url, cursor) to the fetched page; the source builds the
   request URL as instance_url/username/mode + cursor with username and
   mode fixed for the crawl, so the pair determines the request.
   raise_for_status on the page fetch is not modelled: an HTTP error there
   propagates out of the whole run (spec section 4.3), which no claim
   exercises. -/
def fetchStep (cands : List (Option String)) (server : String → String → PageFetch)
    (source : FetchSource) (st : FetchState) : StepResult :=
  match rotationStep cands st with
  | none => StepResult.stuck
  | some st1 =>
    match server st1.instanceUrl st1.cursor with
    | PageFetch.parseError => StepResult.retry (markBadAndForce st1)
    | PageFetch.page hls items showmore =>
      if hls then StepResult.retry (markBadAndForce st1)
      else
        let yielded := if source = FetchSource.SEARCH
          then items.filter (fun x => !x.isRetweet) else items
        match showmore with
        | none => StepResult.emit yielded st1 true
        | some href => StepResult.emit yielded { st1 with cursor := href } false

/- The generator, driven to completion: the concatenation of everything
   it yields.  fuel bounds the number of loop iterations; none means the
   iterations were not enough (or the mirror switcher found no usable
   candidate), so some _ in particular witnesses termination. -/
def fetch_tweet_elements (cands : List (Option String))
    (server : String → String → PageFetch) (source : FetchSource)
    (onePageOnly : Bool) : Nat → FetchState → Option (List TweetItem)
  | 0, _ => none
  | Nat.succ fuel, st =>
    if onePageOnly = true ∧ st.pagecount ≥ 1 then some []
    else
      match fetchStep cands server source st with
      | StepResult.stuck => none
      | StepResult.retry st2 =>
        fetch_tweet_elements cands server source onePageOnly fuel st2
      | StepResult.emit items _ true => some items
      | StepResult.emit items st2 false =>
        match fetch_tweet_elements cands server source onePageOnly fuel st2 with
        | none => none
        | some rest => some (items ++ rest)

/- ---------------------------------------------------------------------
   main's per-record loop
   --------------------------------------------------------------------- -/

/- What main does with one record, observably: hand it to
   _download_tweet_data, or hand its files to _upload_files_to_mega. -/
inductive MainAction where
  | download (r : Nat)
  | upload (r : Nat)
deriving DecidableEq, Repr

/- The body of main's for-loop over the crawl generator, with records
   abstracted to identifiers: i starts at 2; each iteration decrements i
   and breaks when it is negative; otherwise the record is parsed and
   downloaded, and the continue statement then skips the
   _upload_files_to_mega call, leaving it unreachable. -/
def main_record_loop : Int → List Nat → List MainAction
  | _, [] => []
  | i, r :: rs =>
    let i1 := i - 1
    if i1 < 0 then []
    else MainAction.download r :: main_record_loop i1 rs

def main_records (records : List Nat) : List MainAction :=
  main_record_loop 2 records

/- ---------------------------------------------------------------------
   _download_tweet_data and _download_something_to_local_fs
   --------------------------------------------------------------------- -/

inductive WriteOutcome where
  | written
  | skipped
  | externalTool
deriving DecidableEq, Repr

/- One entry of the per-post artifact set: the target path, and whether
   the file was written, skipped on an HTTP error, or delegated to the
   external remuxer subprocess. -/
structure Artifact where
  target : String
  outcome : WriteOutcome
deriving DecidableEq, Repr

/- _download_something_to_local_fs: requests.get(url).raise_for_status()
   raises HTTPError exactly when the status is 400 or above; the handler
   logs and skips, otherwise the body is streamed to target. -/
def download_something_to_local_fs (http : String → Nat) (url target : String) : Artifact :=
  if 400 ≤ http url then ⟨target, WriteOutcome.skipped⟩
  else ⟨target, WriteOutcome.written⟩

def jsonTarget (dir t : String) : String := dir ++ "/tw_info_" ++ t ++ ".json"

def photoTarget (dir t : String) (i : Nat) : String :=
  dir ++ "/tw_photo_" ++ t ++ "_" ++ toString i ++ ".jpg"

def gifTarget (dir t : String) (i : Nat) : String :=
  dir ++ "/tw_gif_" ++ t ++ "_" ++ toString i ++ ".mp4"

def videoTarget (dir t : String) : String := dir ++ "/tw_video_" ++ t ++ ".mp4"

def thumbTarget (dir t : String) : String := dir ++ "/tw_thumb_" ++ t ++ ".jpg"

/- for i, url in enumerate(urls): download url to mkTarget i. -/
def downloadEach (http : String → Nat) (mkTarget : Nat → String) :
    Nat → List String → List Artifact
  | _, [] => []
  | i, u :: us =>
    download_something_to_local_fs http u (mkTarget i)
      :: downloadEach http mkTarget (i + 1) us

/- _download_tweet_data: the JSON metadata file is dumped first
   (unconditionally written), then each photo, each gif, and — when
   video_url is truthy — the video (handed to the vsd subprocess) and the
   thumbnail.  Every target path is appended to the returned list whether
   or not its download succeeded; the returned downloaded_file_names list
   is the targets of these artifacts in order.  t is str(time.time()) and
   dir the staging directory. -/
def download_tweet_data (http : String → Nat) (dir t : String) (td : TweetData) :
    List Artifact :=
  Artifact.mk (jsonTarget dir t) WriteOutcome.written
    :: (downloadEach http (photoTarget dir t) 0 td.photo_urls
        ++ downloadEach http (gifTarget dir t) 0 td.gif_urls
        ++ (if td.video_url = "" then []
            else [Artifact.mk (videoTarget dir t) WriteOutcome.externalTool,
                  download_something_to_local_fs http td.videothumb_url (thumbTarget dir t)]))

/- ---------------------------------------------------------------------
   Concrete sample inputs used by evaluations and witnesses
   --------------------------------------------------------------------- -/

/- A tweet element carrying only an attachments container, on the mirror
   https://m.example. -/
def sampleVideoTe (att : Option AttachmentsEl) : TweetElementWithInstance :=
  ⟨"https://m.example", ⟨none, none, none, none, att⟩⟩

/- A fully populated tweet element from https://m.example. -/
def sampleFullTe : TweetElementWithInstance :=
  ⟨"https://m.example",
   ⟨some (some "/user/status/123"), some (some "Alice"),
    some (some "Nov 1, 2022 · 4:34 PM UTC"), some "<p>hi</p>",
    some ⟨[some "/pic/1.jpg"], [some "/gif/1.mp4"],
          some ⟨some "/pic/y.jpg", some "/video/x.m3u8", []⟩⟩⟩⟩

/- The record extraction produces for sampleFullTe. -/
def sampleFullTd : TweetData :=
  ⟨"https://m.example/user/status/123", some "Alice", ⟨2022, 11, 1, 16, 34⟩,
   "<p>hi</p>", "hi",
   ["https://m.example/pic/1.jpg"], ["https://m.example/gif/1.mp4"],
   "https://m.example/video/x.m3u8", "https://m.example/pic/y.jpg"⟩

/- A record with two photos, a video and a thumbnail. -/
def sampleDlTd : TweetData :=
  ⟨"https://m.example/user/status/1", some "Alice", epochUtc, "", "",
   ["https://m.example/p1.jpg", "https://m.example/p2.jpg"], [],
   "https://m.example/v.m3u8", "https://m.example/th.jpg"⟩

/- An HTTP oracle under which the first photo of sampleDlTd returns 404
   and every other URL returns 200. -/
def sampleHttp : String → Nat :=
  fun u => if u = "https://m.example/p1.jpg" then 404 else 200

/- ---------------------------------------------------------------------
   THEOREMS
   --------------------------------------------------------------------- -/

/- General helper lemmas. -/

theorem string_data_inj {t u : String} (h : t.data = u.data) : t = u := by
  cases t
  cases u
  exact congrArg String.mk h

theorem string_append_cancel_left {s t u : String} (h : s ++ t = s ++ u) : t = u := by
  have hd : s.data ++ t.data = s.data ++ u.data := congrArg String.data h
  exact string_data_inj (List.append_cancel_left hd)

theorem main_record_loop_take (records : List Nat) :
    ∀ n : Nat, main_record_loop (n : Int) records
      = (records.take n).map MainAction.download := by
  induction records with
  | nil => intro n; simp [main_record_loop]
  | cons r rs ih =>
    intro n
    cases n with
    | zero =>
      have h0 : ((0 : Nat) : Int) - 1 < 0 := by norm_num
      simp [main_record_loop, h0]
    | succ m =>
      have h1 : ((m + 1 : Nat) : Int) - 1 = (m : Int) := by push_cast; ring
      have h2 : ¬((m : Int) < 0) := by omega
      simp [main_record_loop, h1, h2, ih m]

/-- Claim C1: the spec says every crawled record has its media downloaded
and its files passed to the upload collaborator.  The source's main loop
instead processes only the first two yielded records (the i = 2 counter
breaks the loop afterwards) and never reaches _upload_files_to_mega at
all, because an unconditional continue statement precedes it.  This
theorem evaluates the embedded loop: for every record sequence the
performed actions are exactly downloads of the first two records, and no
upload action ever occurs. -/
theorem c1_bounded_prefix_no_upload (records : List Nat) :
    main_records records = (records.take 2).map MainAction.download ∧
    ∀ r, MainAction.upload r ∉ main_records records := by
  have h := main_record_loop_take records 2
  refine ⟨h, ?_⟩
  intro r hmem
  rw [show main_records records = main_record_loop ((2 : Nat) : Int) records from rfl, h] at hmem
  rcases List.mem_map.mp hmem with ⟨a, _, ha⟩
  exact MainAction.noConfusion ha

/-- Claim C2: for strings matching the documented pattern the parser is
claimed to perform the standard 12-hour to 24-hour conversion with
"12:xx AM" mapping to hour 0.  The source computes
hour += 12 if ampm == "PM" and hour != 12 else 0, which handles PM hours
and noon correctly but leaves "12:xx AM" at hour 12 instead of 0: the
last conjunct evaluates the embedded parser on "Jun 3, 2021 · 12:05 AM
UTC" and obtains hour 12, the same datetime as 12:05 PM. -/
theorem c2_hour_conversion_eval :
    parse_tweet_date (some (some "Nov 1, 2022 · 4:34 PM UTC"))
      = Except.ok ⟨2022, 11, 1, 16, 34⟩ ∧
    parse_tweet_date (some (some "Jun 3, 2021 · 11:59 AM UTC"))
      = Except.ok ⟨2021, 6, 3, 11, 59⟩ ∧
    parse_tweet_date (some (some "Jun 3, 2021 · 12:05 PM UTC"))
      = Except.ok ⟨2021, 6, 3, 12, 5⟩ ∧
    parse_tweet_date (some (some "Jun 3, 2021 · 12:05 AM UTC"))
      = Except.ok ⟨2021, 6, 3, 12, 5⟩ :=
  ⟨by decide, by decide, by decide, by decide⟩

/-- Claim C3: on an unparseable date the parser is claimed to return the
Unix epoch and never raise.  The embedded parser does fall back to the
epoch for a missing date link, an unknown month abbreviation and a
non-matching string, but when the date link exists and its title
attribute is absent, element.get("title") returns None and
html.unescape(None) raises TypeError — the final conjunct evaluates that
divergence. -/
theorem c3_malformed_date_eval :
    parse_tweet_date none = Except.ok epochUtc ∧
    parse_tweet_date (some (some "Xyz 1, 2023 · 4:34 PM UTC")) = Except.ok epochUtc ∧
    parse_tweet_date (some (some "not a date")) = Except.ok epochUtc ∧
    parse_tweet_date (some none) = Except.error PyError.typeError :=
  ⟨by decide, by decide, by decide, by decide⟩

/-- Claim C5: video extraction is claimed to take the first video
element's data-url, else its first source's src, plus the poster as
thumbnail, yield empty strings when no video element exists, and never
raise whatever is missing.  The first four conjuncts confirm the selection
logic and the empty-string cases; the last two evaluate the divergence:
a video element carrying neither data-url nor a sourced src, or lacking a
poster, makes the source concatenate None to a str and raise TypeError. -/
theorem c5_video_extraction_eval :
    parse_tweet_video (sampleVideoTe none) = Except.ok ("", "") ∧
    parse_tweet_video (sampleVideoTe (some ⟨[], [], none⟩)) = Except.ok ("", "") ∧
    parse_tweet_video
        (sampleVideoTe (some ⟨[], [], some ⟨some "/pic/y.jpg", some "/video/x.m3u8", []⟩⟩))
      = Except.ok ("https://m.example/video/x.m3u8", "https://m.example/pic/y.jpg") ∧
    parse_tweet_video
        (sampleVideoTe (some ⟨[], [], some ⟨some "/p.jpg", none, [⟨some "/v.mp4"⟩]⟩⟩))
      = Except.ok ("https://m.example/v.mp4", "https://m.example/p.jpg") ∧
    parse_tweet_video (sampleVideoTe (some ⟨[], [], some ⟨some "/p.jpg", none, []⟩⟩))
      = Except.error PyError.typeError ∧
    parse_tweet_video (sampleVideoTe (some ⟨[], [], some ⟨none, some "/v.m3u8", []⟩⟩))
      = Except.error PyError.typeError :=
  ⟨by decide, by decide, by decide, by decide, by decide, by decide⟩

/- Helper lemmas about the download step. -/

theorem download_something_eq (http : String → Nat) (u tgt : String) :
    download_something_to_local_fs http u tgt
      = ⟨tgt, if 400 ≤ http u then WriteOutcome.skipped else WriteOutcome.written⟩ := by
  unfold download_something_to_local_fs
  split <;> simp_all

theorem downloadEach_mem (http : String → Nat) (mkT : Nat → String) :
    ∀ (us : List String) (i j : Nat) (hj : j < us.length),
      download_something_to_local_fs http (us.get ⟨j, hj⟩) (mkT (i + j))
        ∈ downloadEach http mkT i us := by
  intro us
  induction us with
  | nil => intro i j hj; exact absurd hj (by simp)
  | cons u rest ih =>
    intro i j hj
    cases j with
    | zero => simp [downloadEach]
    | succ j2 =>
      have hj2 : j2 < rest.length := by simpa using Nat.lt_of_succ_lt_succ hj
      have h2 := ih (i + 1) j2 hj2
      have harith : i + 1 + j2 = i + (j2 + 1) := by omega
      rw [harith] at h2
      exact List.mem_cons_of_mem _ h2

theorem downloadEach_targets (http http2 : String → Nat) (mkT : Nat → String) :
    ∀ (us : List String) (i : Nat),
      (downloadEach http mkT i us).map Artifact.target
        = (downloadEach http2 mkT i us).map Artifact.target := by
  intro us
  induction us with
  | nil => intro i; rfl
  | cons u rest ih =>
    intro i
    simp [downloadEach, download_something_eq, ih (i + 1)]

/- The membership facts about the artifact batch, shared by the C9 and
   C10 theorems: photo j, gif j and (with a video) the video and
   thumbnail artifacts are all in the batch, each download outcome
   decided by its own URL's status alone. -/
theorem download_batch_mem (http : String → Nat) (dir t : String) (td : TweetData) :
    (∀ (j : Nat) (hj : j < td.photo_urls.length),
      Artifact.mk (photoTarget dir t j)
        (if 400 ≤ http (td.photo_urls.get ⟨j, hj⟩) then WriteOutcome.skipped
         else WriteOutcome.written) ∈ download_tweet_data http dir t td) ∧
    (∀ (j : Nat) (hj : j < td.gif_urls.length),
      Artifact.mk (gifTarget dir t j)
        (if 400 ≤ http (td.gif_urls.get ⟨j, hj⟩) then WriteOutcome.skipped
         else WriteOutcome.written) ∈ download_tweet_data http dir t td) ∧
    (td.video_url ≠ "" →
      Artifact.mk (videoTarget dir t) WriteOutcome.externalTool
          ∈ download_tweet_data http dir t td ∧
      Artifact.mk (thumbTarget dir t)
        (if 400 ≤ http td.videothumb_url then WriteOutcome.skipped
         else WriteOutcome.written) ∈ download_tweet_data http dir t td) := by
  refine ⟨?_, ?_, ?_⟩
  · intro j hj
    have hm := downloadEach_mem http (photoTarget dir t) td.photo_urls 0 j hj
    rw [download_something_eq] at hm
    simp only [Nat.zero_add] at hm
    exact List.mem_cons_of_mem _ (List.mem_append_left _ (List.mem_append_left _ hm))
  · intro j hj
    have hm := downloadEach_mem http (gifTarget dir t) td.gif_urls 0 j hj
    rw [download_something_eq] at hm
    simp only [Nat.zero_add] at hm
    exact List.mem_cons_of_mem _
      (List.mem_append_left _ (List.mem_append_right _ hm))
  · intro hv
    constructor
    · unfold download_tweet_data
      rw [if_neg hv]
      exact List.mem_cons_of_mem _ (List.mem_append_right _ (List.mem_cons_self _ _))
    · unfold download_tweet_data
      rw [if_neg hv, download_something_eq]
      refine List.mem_cons_of_mem _ (List.mem_append_right _ ?_)
      exact List.mem_cons_of_mem _ (List.mem_singleton.mpr rfl)

/-- Claim C9: a media URL whose download yields a non-success HTTP status
is skipped alone: for an arbitrary HTTP oracle, the JSON metadata
artifact is always the (written) head of the batch, and each photo, gif
and thumbnail artifact is present with an outcome (written versus
skipped) determined solely by that item's own URL status — failures of
sibling URLs cannot remove it from the batch. -/
theorem c9_media_failure_isolated (http : String → Nat) (dir t : String) (td : TweetData) :
    (download_tweet_data http dir t td).head?
        = some (Artifact.mk (jsonTarget dir t) WriteOutcome.written) ∧
    (∀ (j : Nat) (hj : j < td.photo_urls.length),
      Artifact.mk (photoTarget dir t j)
        (if 400 ≤ http (td.photo_urls.get ⟨j, hj⟩) then WriteOutcome.skipped
         else WriteOutcome.written) ∈ download_tweet_data http dir t td) ∧
    (∀ (j : Nat) (hj : j < td.gif_urls.length),
      Artifact.mk (gifTarget dir t j)
        (if 400 ≤ http (td.gif_urls.get ⟨j, hj⟩) then WriteOutcome.skipped
         else WriteOutcome.written) ∈ download_tweet_data http dir t td) ∧
    (td.video_url ≠ "" →
      Artifact.mk (thumbTarget dir t)
        (if 400 ≤ http td.videothumb_url then WriteOutcome.skipped
         else WriteOutcome.written) ∈ download_tweet_data http dir t td) := by
  have h := download_batch_mem http dir t td
  exact ⟨rfl, h.1, h.2.1, fun hv => (h.2.2 hv).2⟩

/-- Witness for C9 on concrete inputs: with the first photo answering 404
and everything else 200, the first photo is skipped, the second photo is
still written, and the JSON metadata artifact heads the batch. -/
theorem c9_media_failure_isolated_witness :
    Artifact.mk (photoTarget "dl" "tok" 0) WriteOutcome.skipped
        ∈ download_tweet_data sampleHttp "dl" "tok" sampleDlTd ∧
    Artifact.mk (photoTarget "dl" "tok" 1) WriteOutcome.written
        ∈ download_tweet_data sampleHttp "dl" "tok" sampleDlTd ∧
    (download_tweet_data sampleHttp "dl" "tok" sampleDlTd).head?
        = some (Artifact.mk (jsonTarget "dl" "tok") WriteOutcome.written) := by
  have h := c9_media_failure_isolated sampleHttp "dl" "tok" sampleDlTd
  have h0 := h.2.1 0 (by decide)
  have h1 := h.2.1 1 (by decide)
  refine ⟨?_, ?_, h.1⟩
  · have he : (if 400 ≤ sampleHttp (sampleDlTd.photo_urls.get ⟨0, by decide⟩)
        then WriteOutcome.skipped else WriteOutcome.written) = WriteOutcome.skipped := by decide
    rw [he] at h0
    exact h0
  · have he : (if 400 ≤ sampleHttp (sampleDlTd.photo_urls.get ⟨1, by decide⟩)
        then WriteOutcome.skipped else WriteOutcome.written) = WriteOutcome.written := by decide
    rw [he] at h1
    exact h1

/-- Claim C10: the path list _download_tweet_data returns is the JSON
metadata file first, followed by the target path of every referenced
media item, and it does not depend on the HTTP outcomes at all — a
skipped item's path is still returned (last conjunct pairs such a path
with its skipped outcome), so the list may name files that were never
written to disk. -/
theorem c10_artifact_path_list (http http2 : String → Nat) (dir t : String) (td : TweetData) :
    ((download_tweet_data http dir t td).map Artifact.target
      = (download_tweet_data http2 dir t td).map Artifact.target) ∧
    ((download_tweet_data http dir t td).map Artifact.target).head?
      = some (jsonTarget dir t) ∧
    (∀ (j : Nat) (hj : j < td.photo_urls.length),
      photoTarget dir t j ∈ (download_tweet_data http dir t td).map Artifact.target) ∧
    (∀ (j : Nat) (hj : j < td.gif_urls.length),
      gifTarget dir t j ∈ (download_tweet_data http dir t td).map Artifact.target) ∧
    (td.video_url ≠ "" →
      videoTarget dir t ∈ (download_tweet_data http dir t td).map Artifact.target ∧
      thumbTarget dir t ∈ (download_tweet_data http dir t td).map Artifact.target) ∧
    (∀ (j : Nat) (hj : j < td.photo_urls.length),
      400 ≤ http (td.photo_urls.get ⟨j, hj⟩) →
        Artifact.mk (photoTarget dir t j) WriteOutcome.skipped
          ∈ download_tweet_data http dir t td) := by
  have hmem := download_batch_mem http dir t td
  refine ⟨?_, rfl, ?_, ?_, ?_, ?_⟩
  · unfold download_tweet_data
    simp only [List.map_cons, List.map_append]
    rw [downloadEach_targets http http2 (photoTarget dir t) td.photo_urls 0,
        downloadEach_targets http http2 (gifTarget dir t) td.gif_urls 0]
    by_cases hv : td.video_url = ""
    · rw [if_pos hv, if_pos hv]
    · rw [if_neg hv, if_neg hv]
      simp [download_something_eq]
  · intro j hj
    exact List.mem_map_of_mem Artifact.target (hmem.1 j hj)
  · intro j hj
    exact List.mem_map_of_mem Artifact.target (hmem.2.1 j hj)
  · intro hv
    rcases hmem.2.2 hv with ⟨hvid, hth⟩
    exact ⟨List.mem_map_of_mem Artifact.target hvid, List.mem_map_of_mem Artifact.target hth⟩
  · intro j hj hstatus
    have hm := hmem.1 j hj
    rwa [if_pos hstatus] at hm

/-- Witness for C10 on concrete inputs: under the 404-for-photo-one
oracle the returned path list is identical to the all-success one, the
skipped photo's path is still in it, and the video and thumbnail paths
are present. -/
theorem c10_artifact_path_list_witness :
    (download_tweet_data sampleHttp "dl" "tok" sampleDlTd).map Artifact.target
      = (download_tweet_data (fun _ => 200) "dl" "tok" sampleDlTd).map Artifact.target ∧
    photoTarget "dl" "tok" 0
      ∈ (download_tweet_data sampleHttp "dl" "tok" sampleDlTd).map Artifact.target ∧
    videoTarget "dl" "tok"
      ∈ (download_tweet_data sampleHttp "dl" "tok" sampleDlTd).map Artifact.target ∧
    thumbTarget "dl" "tok"
      ∈ (download_tweet_data sampleHttp "dl" "tok" sampleDlTd).map Artifact.target ∧
    Artifact.mk (photoTarget "dl" "tok" 0) WriteOutcome.skipped
      ∈ download_tweet_data sampleHttp "dl" "tok" sampleDlTd := by
  have h := c10_artifact_path_list sampleHttp (fun _ => 200) "dl" "tok" sampleDlTd
  exact ⟨h.1, h.2.2.1 0 (by decide), (h.2.2.2.2.1 (by decide)).1,
         (h.2.2.2.2.1 (by decide)).2, h.2.2.2.2.2 0 (by decide) (by decide)⟩

/- Helper lemmas for the mirror-prefix invariant. -/

theorem strPrefixAppend (s t : String) : s.data <+: (s ++ t).data :=
  ⟨t.data, rfl⟩

theorem qualifyHrefs_rooted (inst : String) :
    ∀ (hs : List (Option String)) (us : List String),
      qualifyHrefs inst hs = Except.ok us → ∀ u ∈ us, inst.data <+: u.data := by
  intro hs
  induction hs with
  | nil =>
    intro us h u hu
    have : us = [] := (Except.ok.inj h).symm
    subst this
    exact absurd hu (by simp)
  | cons c rest ih =>
    intro us h u hu
    cases c with
    | none => exact Except.noConfusion h
    | some hr =>
      unfold qualifyHrefs at h
      cases hrec : qualifyHrefs inst rest with
      | error e => rw [hrec] at h; exact Except.noConfusion h
      | ok us2 =>
        rw [hrec] at h
        have : (inst ++ hr) :: us2 = us := Except.ok.inj h
        subst this
        rcases List.mem_cons.mp hu with heq | hmem
        · subst heq; exact strPrefixAppend inst hr
        · exact ih us2 hrec u hmem

theorem gifs_rooted (te : TweetElementWithInstance) :
    ∀ u ∈ parse_tweet_gifs te, te.instance_url.data <+: u.data := by
  intro u hu
  unfold parse_tweet_gifs at hu
  cases hatt : te.element.attachments with
  | none => rw [hatt] at hu; exact absurd hu (by simp)
  | some att =>
    rw [hatt] at hu
    rcases List.mem_filterMap.mp hu with ⟨a, _, ha⟩
    cases a with
    | none => exact Option.noConfusion ha
    | some s =>
      have : te.instance_url ++ s = u := Option.some.inj ha
      subst this
      exact strPrefixAppend te.instance_url s

theorem video_rooted (te : TweetElementWithInstance) (vu pu : String)
    (h : parse_tweet_video te = Except.ok (vu, pu)) :
    (vu = "" ∧ pu = "") ∨
    (∃ a b, vu = te.instance_url ++ a ∧ pu = te.instance_url ++ b) := by
  cases hatt : te.element.attachments with
  | none =>
    simp only [parse_tweet_video, hatt] at h
    have := Except.ok.inj h
    exact Or.inl ⟨(congrArg Prod.fst this).symm, (congrArg Prod.snd this).symm⟩
  | some att =>
    cases hvid : att.video with
    | none =>
      simp only [parse_tweet_video, hatt, hvid] at h
      have := Except.ok.inj h
      exact Or.inl ⟨(congrArg Prod.fst this).symm, (congrArg Prod.snd this).symm⟩
    | some v =>
      cases hpo : v.poster with
      | none =>
        cases hdu : v.dataUrl with
        | some u =>
          simp only [parse_tweet_video, hatt, hvid, hpo, hdu] at h
          exact Except.noConfusion h
        | none =>
          cases hhd : v.sources.head? with
          | none =>
            simp only [parse_tweet_video, hatt, hvid, hpo, hdu, hhd] at h
            exact Except.noConfusion h
          | some se =>
            cases hsrc : se.src with
            | none =>
              simp only [parse_tweet_video, hatt, hvid, hpo, hdu, hhd, hsrc] at h
              exact Except.noConfusion h
            | some u =>
              simp only [parse_tweet_video, hatt, hvid, hpo, hdu, hhd, hsrc] at h
              exact Except.noConfusion h
      | some p =>
        cases hdu : v.dataUrl with
        | some u =>
          simp only [parse_tweet_video, hatt, hvid, hpo, hdu] at h
          have hpair := Except.ok.inj h
          exact Or.inr ⟨u, p, (congrArg Prod.fst hpair).symm, (congrArg Prod.snd hpair).symm⟩
        | none =>
          cases hhd : v.sources.head? with
          | none =>
            simp only [parse_tweet_video, hatt, hvid, hpo, hdu, hhd] at h
            exact Except.noConfusion h
          | some se =>
            cases hsrc : se.src with
            | none =>
              simp only [parse_tweet_video, hatt, hvid, hpo, hdu, hhd, hsrc] at h
              exact Except.noConfusion h
            | some u =>
              simp only [parse_tweet_video, hatt, hvid, hpo, hdu, hhd, hsrc] at h
              have hpair := Except.ok.inj h
              exact Or.inr ⟨u, p, (congrArg Prod.fst hpair).symm,
                            (congrArg Prod.snd hpair).symm⟩

/-- Claim C4: every non-empty URL field of an extracted record is rooted
at the mirror that served the page: the permalink, each photo URL, each
gif URL, the video URL and the thumbnail URL all carry the record's
instance_url as a prefix (the runtime instance URLs are
"https://" ++ hostname, so such fields are absolute URLs). -/
theorem c4_urls_mirror_rooted (te : TweetElementWithInstance) (td : TweetData)
    (h : parse_tweet_element te = Except.ok td) :
    (td.link ≠ "" → te.instance_url.data <+: td.link.data) ∧
    (∀ u ∈ td.photo_urls, te.instance_url.data <+: u.data) ∧
    (∀ u ∈ td.gif_urls, te.instance_url.data <+: u.data) ∧
    (td.video_url ≠ "" → te.instance_url.data <+: td.video_url.data) ∧
    (td.videothumb_url ≠ "" → te.instance_url.data <+: td.videothumb_url.data) := by
  unfold parse_tweet_element at h
  simp only [bind, Except.bind] at h
  cases hlink : parse_tweet_link te with
  | error e => rw [hlink] at h; exact Except.noConfusion h
  | ok link =>
    rw [hlink] at h
    cases hdate : parse_tweet_date te.element.dateTitle with
    | error e => rw [hdate] at h; exact Except.noConfusion h
    | ok date =>
      rw [hdate] at h
      cases hph : parse_tweet_photos te with
      | error e => rw [hph] at h; exact Except.noConfusion h
      | ok photos =>
        rw [hph] at h
        cases hvid : parse_tweet_video te with
        | error e => rw [hvid] at h; exact Except.noConfusion h
        | ok video =>
          rw [hvid] at h
          simp only [pure, Except.pure] at h
          have htd := Except.ok.inj h
          subst htd
          refine ⟨?_, ?_, gifs_rooted te, ?_, ?_⟩
          · intro hne
            unfold parse_tweet_link at hlink
            cases hl : te.element.tweetLinkHref with
            | none =>
              rw [hl] at hlink
              exact absurd (Except.ok.inj hlink).symm hne
            | some attr =>
              cases attr with
              | none => rw [hl] at hlink; exact Except.noConfusion hlink
              | some href =>
                rw [hl] at hlink
                rw [← Except.ok.inj hlink]
                exact strPrefixAppend te.instance_url href
          · intro u hu
            unfold parse_tweet_photos at hph
            cases hatt : te.element.attachments with
            | none =>
              rw [hatt] at hph
              rw [← Except.ok.inj hph] at hu
              exact absurd hu (by simp)
            | some att =>
              rw [hatt] at hph
              exact qualifyHrefs_rooted te.instance_url att.stillImageHrefs photos hph u hu
          · intro hne
            rcases video_rooted te video.1 video.2 hvid with ⟨hv, _⟩ | ⟨a, _, hv, _⟩
            · exact absurd hv hne
            · rw [hv]; exact strPrefixAppend te.instance_url a
          · intro hne
            rcases video_rooted te video.1 video.2 hvid with ⟨_, hp⟩ | ⟨_, b, _, hp⟩
            · exact absurd hp hne
            · rw [hp]; exact strPrefixAppend te.instance_url b

/-- Witness for C4: the fully populated sample element from
https://m.example extracts successfully and every URL field is rooted at
that mirror. -/
theorem c4_urls_mirror_rooted_witness :
    ("https://m.example" : String).data <+: ("https://m.example/user/status/123" : String).data ∧
    ("https://m.example" : String).data <+: ("https://m.example/pic/1.jpg" : String).data ∧
    ("https://m.example" : String).data <+: ("https://m.example/gif/1.mp4" : String).data ∧
    ("https://m.example" : String).data <+: ("https://m.example/video/x.m3u8" : String).data ∧
    ("https://m.example" : String).data <+: ("https://m.example/pic/y.jpg" : String).data := by
  have h := c4_urls_mirror_rooted sampleFullTe sampleFullTd (by decide)
  exact ⟨h.1 (by decide), h.2.1 _ (by decide), h.2.2.1 _ (by decide),
         h.2.2.2.1 (by decide), h.2.2.2.2 (by decide)⟩

/- Helper lemmas about mirror selection and the crawl loop. -/

theorem switcher_new_spec :
    ∀ (cands : List (Option String)) (st : SwitcherState) (url : String)
      (st2 : SwitcherState),
      switcher_new cands st = some (url, st2) →
        st2.badInstances = st.badInstances ∧ st2.usOnly = st.usOnly ∧
        ∃ hn, url = "https://" ++ hn ∧ hn ∉ st.badInstances := by
  intro cands
  induction cands with
  | nil => intro st url st2 h; exact Option.noConfusion h
  | cons c rest ih =>
    intro st url st2 h
    cases c with
    | none =>
      simp only [switcher_new] at h
      exact ih st url st2 h
    | some hn =>
      simp only [switcher_new] at h
      by_cases hcond : hn = "" ∨ hn ∈ st.badInstances ∨
          (st.usOnly = true ∧ hn ∈ usInstancesWithAgeRestricted)
      · rw [if_pos hcond] at h
        exact ih st url st2 h
      · rw [if_neg hcond] at h
        have hp := Option.some.inj h
        have hurl : url = "https://" ++ hn := (congrArg Prod.fst hp).symm
        have hst : st2 = { st with switches := st.switches + 1,
                                   currentInstance := "https://" ++ hn } :=
          (congrArg Prod.snd hp).symm
        push_neg at hcond
        subst hst
        exact ⟨rfl, rfl, hn, hurl, hcond.2.1⟩

theorem add_bad_instance_mem (u hn : String) (bad : List String) (h : hn ∈ bad) :
    hn ∈ add_bad_instance u bad := by
  unfold add_bad_instance
  split
  · exact h
  · exact List.mem_cons_of_mem _ h

theorem rotationStep_spec {cands : List (Option String)} {st st1 : FetchState}
    (h : rotationStep cands st = some st1) :
    st1.cursor = st.cursor ∧ st1.switcher.badInstances = st.switcher.badInstances ∧
    st1.switcher.usOnly = st.switcher.usOnly ∧ st1.pagecount = st.pagecount + 1 := by
  simp only [rotationStep] at h
  by_cases hp : st.pagesUntilSwitch - 1 ≤ 0
  · rw [if_pos hp] at h
    cases hsw : switcher_new cands st.switcher with
    | none => rw [hsw] at h; exact Option.noConfusion h
    | some pr =>
      obtain ⟨url, sw⟩ := pr
      rw [hsw] at h
      have hst := (Option.some.inj h).symm
      have hspec := switcher_new_spec cands st.switcher url sw hsw
      subst hst
      exact ⟨rfl, hspec.1, hspec.2.1, rfl⟩
  · rw [if_neg hp] at h
    have hst := (Option.some.inj h).symm
    subst hst
    exact ⟨rfl, rfl, rfl, rfl⟩

theorem fetchStep_retry_spec {cands : List (Option String)}
    {server : String → String → PageFetch} {source : FetchSource}
    {st st2 : FetchState}
    (h : fetchStep cands server source st = StepResult.retry st2) :
    ∃ st1, rotationStep cands st = some st1 ∧ st2 = markBadAndForce st1 := by
  cases hrot : rotationStep cands st with
  | none =>
    simp only [fetchStep, hrot] at h
    exact StepResult.noConfusion h
  | some st1 =>
    refine ⟨st1, rfl, ?_⟩
    simp only [fetchStep, hrot] at h
    cases hsv : server st1.instanceUrl st1.cursor with
    | parseError =>
      rw [hsv] at h
      exact (StepResult.retry.inj h).symm
    | page hls items more =>
      rw [hsv] at h
      cases hls with
      | true =>
        simp only [if_pos rfl] at h
        exact (StepResult.retry.inj h).symm
      | false =>
        simp only [Bool.false_eq_true, if_neg] at h
        cases more with
        | none => exact StepResult.noConfusion h
        | some href => exact StepResult.noConfusion h

theorem fetchStep_emit_spec {cands : List (Option String)}
    {server : String → String → PageFetch} {source : FetchSource}
    {st st2 : FetchState} {items : List TweetItem} {d : Bool}
    (h : fetchStep cands server source st = StepResult.emit items st2 d) :
    ∃ st1, rotationStep cands st = some st1 ∧
      st2.instanceUrl = st1.instanceUrl ∧ st2.pagesUntilSwitch = st1.pagesUntilSwitch ∧
      st2.pagecount = st1.pagecount ∧ st2.switcher = st1.switcher := by
  cases hrot : rotationStep cands st with
  | none =>
    simp only [fetchStep, hrot] at h
    exact StepResult.noConfusion h
  | some st1 =>
    refine ⟨st1, rfl, ?_⟩
    simp only [fetchStep, hrot] at h
    cases hsv : server st1.instanceUrl st1.cursor with
    | parseError =>
      rw [hsv] at h
      exact StepResult.noConfusion h
    | page hls items2 more =>
      rw [hsv] at h
      cases hls with
      | true =>
        simp only [if_pos rfl] at h
        exact StepResult.noConfusion h
      | false =>
        simp only [Bool.false_eq_true, if_neg] at h
        cases more with
        | none =>
          have hst := (StepResult.emit.inj h).2.1.symm
          subst hst
          exact ⟨rfl, rfl, rfl, rfl⟩
        | some href =>
          have hst := (StepResult.emit.inj h).2.1.symm
          subst hst
          exact ⟨rfl, rfl, rfl, rfl⟩

/-- Claim C6: selection never returns a blacklisted mirror: whenever
NitterInstanceSwitcher.new succeeds it returns https:// plus a hostname
outside the current bad set, and nothing ever removes a hostname from
that set — marking only adds, a retry step only adds, and an emitting
step leaves it unchanged — so once a hostname is bad (pre-seeded or
marked later) no later selection can return it. -/
theorem c6_selection_never_bad :
    (∀ (cands : List (Option String)) (st : SwitcherState) (url : String)
        (st2 : SwitcherState),
      switcher_new cands st = some (url, st2) →
        (∀ hn ∈ st.badInstances, url ≠ "https://" ++ hn) ∧
        st2.badInstances = st.badInstances) ∧
    (∀ (u hn : String) (bad : List String), hn ∈ bad → hn ∈ add_bad_instance u bad) ∧
    (∀ (cands : List (Option String)) (server : String → String → PageFetch)
        (source : FetchSource) (st st2 : FetchState),
      fetchStep cands server source st = StepResult.retry st2 →
        ∀ hn ∈ st.switcher.badInstances, hn ∈ st2.switcher.badInstances) ∧
    (∀ (cands : List (Option String)) (server : String → String → PageFetch)
        (source : FetchSource) (st st2 : FetchState) (items : List TweetItem) (d : Bool),
      fetchStep cands server source st = StepResult.emit items st2 d →
        st2.switcher.badInstances = st.switcher.badInstances) := by
  refine ⟨?_, add_bad_instance_mem, ?_, ?_⟩
  · intro cands st url st2 h
    have hspec := switcher_new_spec cands st url st2 h
    rcases hspec.2.2 with ⟨hn0, hurl, hn0bad⟩
    refine ⟨?_, hspec.1⟩
    intro hn hmem heq
    rw [hurl] at heq
    have : hn0 = hn := string_append_cancel_left heq
    exact hn0bad (this ▸ hmem)
  · intro cands server source st st2 h hn hmem
    rcases fetchStep_retry_spec h with ⟨st1, hrot, hmark⟩
    have hbad := (rotationStep_spec hrot).2.1
    subst hmark
    exact add_bad_instance_mem _ _ _ (hbad ▸ hmem)
  · intro cands server source st st2 items d h
    rcases fetchStep_emit_spec h with ⟨st1, hrot, _, _, _, hsw⟩
    rw [hsw, (rotationStep_spec hrot).2.1]

/-- Witness for C6: with the bad set holding badhost, selecting from a
candidate supply offering goodhost succeeds and the returned URL is not
https://badhost, and adding to the bad set preserves badhost. -/
theorem c6_selection_never_bad_witness :
    ("https://goodhost" : String) ≠ "https://" ++ "badhost" ∧
    ("badhost" : String) ∈ add_bad_instance "https://otherhost" ["badhost"] := by
  have h := c6_selection_never_bad
  have h1 := h.1 [some "goodhost"] ⟨0, "", ["badhost"], false⟩ "https://goodhost"
    ⟨1, "https://goodhost", ["badhost"], false⟩ (by decide)
  exact ⟨h1.1 "badhost" (by decide), h.2.1 "https://otherhost" "badhost" ["badhost"] (by decide)⟩

/- Further rotation helpers for the scheduling claim. -/

theorem switcher_new_counts :
    ∀ (cands : List (Option String)) (st : SwitcherState) (url : String)
      (st2 : SwitcherState),
      switcher_new cands st = some (url, st2) →
        st2.switches = st.switches + 1 ∧ st2.currentInstance = url := by
  intro cands
  induction cands with
  | nil => intro st url st2 h; exact Option.noConfusion h
  | cons c rest ih =>
    intro st url st2 h
    cases c with
    | none =>
      simp only [switcher_new] at h
      exact ih st url st2 h
    | some hn =>
      simp only [switcher_new] at h
      by_cases hcond : hn = "" ∨ hn ∈ st.badInstances ∨
          (st.usOnly = true ∧ hn ∈ usInstancesWithAgeRestricted)
      · rw [if_pos hcond] at h
        exact ih st url st2 h
      · rw [if_neg hcond] at h
        have hp := Option.some.inj h
        have hurl : url = "https://" ++ hn := (congrArg Prod.fst hp).symm
        have hst : st2 = { st with switches := st.switches + 1,
                                   currentInstance := "https://" ++ hn } :=
          (congrArg Prod.snd hp).symm
        subst hst
        exact ⟨rfl, hurl.symm⟩

theorem rotationStep_select {cands : List (Option String)} {st st1 : FetchState}
    (hle : st.pagesUntilSwitch ≤ 1) (h : rotationStep cands st = some st1) :
    st1.pagesUntilSwitch = 3 ∧ st1.switcher.switches = st.switcher.switches + 1 ∧
    st1.instanceUrl = st1.switcher.currentInstance := by
  simp only [rotationStep] at h
  have hp : st.pagesUntilSwitch - 1 ≤ 0 := by omega
  rw [if_pos hp] at h
  cases hsw : switcher_new cands st.switcher with
  | none => rw [hsw] at h; exact Option.noConfusion h
  | some pr =>
    obtain ⟨url, sw⟩ := pr
    rw [hsw] at h
    have hst := (Option.some.inj h).symm
    have hc := switcher_new_counts cands st.switcher url sw hsw
    subst hst
    exact ⟨rfl, hc.1, hc.2.symm⟩

theorem rotationStep_noswitch {cands : List (Option String)} {st st1 : FetchState}
    (hge : 2 ≤ st.pagesUntilSwitch) (h : rotationStep cands st = some st1) :
    st1.instanceUrl = st.instanceUrl ∧ st1.switcher = st.switcher ∧
    st1.pagesUntilSwitch = st.pagesUntilSwitch - 1 := by
  simp only [rotationStep] at h
  have hp : ¬(st.pagesUntilSwitch - 1 ≤ 0) := by omega
  rw [if_neg hp] at h
  have hst := (Option.some.inj h).symm
  subst hst
  exact ⟨rfl, rfl, rfl⟩

theorem add_bad_instance_self (u : String) (bad : List String) :
    removeHttpsScheme u ∈ add_bad_instance u bad := by
  unfold add_bad_instance
  split
  · assumption
  · exact List.mem_cons_self _ _

/-- Claim C7: the crawl loop's rotation policy: (1) the very first
iteration (pages_until_instanceswitch starts at 0) performs a mirror
selection and resets the window to 3; (2) any iteration entered with the
window at 1 or less selects and resets to 3; (3) an iteration entered
with the window above 1 keeps the mirror and just decrements the window,
so exactly three successfully fetched pages fit between selections;
(4) a successfully emitted page advances the page counter and keeps the
iteration-head window value; (5) a parse-failure or HLS-disabled symptom
leaves the cursor untouched (the same logical page is re-requested),
backtracks the page counter to its pre-iteration value, forces the
window to 0 so the next iteration rotates, and records the mirror's
hostname in the bad set. -/
theorem c7_rotation_schedule :
    (∀ (cands : List (Option String)) (st1 : FetchState),
      rotationStep cands initialFetchState = some st1 →
        st1.pagesUntilSwitch = 3 ∧
        st1.switcher.switches = initialFetchState.switcher.switches + 1 ∧
        st1.instanceUrl = st1.switcher.currentInstance) ∧
    (∀ (cands : List (Option String)) (st st1 : FetchState),
      st.pagesUntilSwitch ≤ 1 → rotationStep cands st = some st1 →
        st1.pagesUntilSwitch = 3 ∧
        st1.switcher.switches = st.switcher.switches + 1) ∧
    (∀ (cands : List (Option String)) (st st1 : FetchState),
      2 ≤ st.pagesUntilSwitch → rotationStep cands st = some st1 →
        st1.instanceUrl = st.instanceUrl ∧ st1.switcher = st.switcher ∧
        st1.pagesUntilSwitch = st.pagesUntilSwitch - 1) ∧
    (∀ (cands : List (Option String)) (server : String → String → PageFetch)
        (source : FetchSource) (st st2 : FetchState) (items : List TweetItem) (d : Bool),
      fetchStep cands server source st = StepResult.emit items st2 d →
        ∃ st1, rotationStep cands st = some st1 ∧
          st2.instanceUrl = st1.instanceUrl ∧
          st2.pagesUntilSwitch = st1.pagesUntilSwitch ∧
          st2.pagecount = st.pagecount + 1) ∧
    (∀ (cands : List (Option String)) (server : String → String → PageFetch)
        (source : FetchSource) (st st2 : FetchState),
      fetchStep cands server source st = StepResult.retry st2 →
        st2.cursor = st.cursor ∧ st2.pagecount = st.pagecount ∧
        st2.pagesUntilSwitch = 0 ∧
        removeHttpsScheme st2.instanceUrl ∈ st2.switcher.badInstances) := by
  refine ⟨?_, ?_, ?_, ?_, ?_⟩
  · intro cands st1 h
    exact rotationStep_select (by norm_num [initialFetchState]) h
  · intro cands st st1 hle h
    have hs := rotationStep_select hle h
    exact ⟨hs.1, hs.2.1⟩
  · intro cands st st1 hge h
    exact rotationStep_noswitch hge h
  · intro cands server source st st2 items d h
    rcases fetchStep_emit_spec h with ⟨st1, hrot, hurl, hpuis, hpc, _⟩
    exact ⟨st1, hrot, hurl, hpuis, by rw [hpc, (rotationStep_spec hrot).2.2.2]⟩
  · intro cands server source st st2 h
    rcases fetchStep_retry_spec h with ⟨st1, hrot, hmark⟩
    have hs := rotationStep_spec hrot
    subst hmark
    refine ⟨hs.1, ?_, rfl, add_bad_instance_self _ _⟩
    show st1.pagecount - 1 = st.pagecount
    omega

/-- Witness for C7: from the initial state with one usable candidate
mirrorhost, the first iteration selects (switch counter becomes 1), and
against a server whose response never parses the step retries with the
mirror hostname recorded bad. -/
theorem c7_rotation_schedule_witness :
    ((3 : Int) = 3 ∧ (1 : Nat) = initialFetchState.switcher.switches + 1 ∧
      ("https://mirrorhost" : String) = "https://mirrorhost") ∧
    removeHttpsScheme "https://mirrorhost"
      ∈ add_bad_instance "https://mirrorhost" initialBadInstances := by
  have h := c7_rotation_schedule
  have h1 := h.1 [some "mirrorhost"]
    ⟨1, "https://mirrorhost", 3, "",
     ⟨1, "https://mirrorhost", initialBadInstances, true⟩⟩ (by decide)
  have h5 := h.2.2.2.2 [some "mirrorhost"] (fun _ _ => PageFetch.parseError)
    FetchSource.SEARCH initialFetchState
    ⟨0, "https://mirrorhost", 0, "",
     ⟨1, "https://mirrorhost", add_bad_instance "https://mirrorhost" initialBadInstances,
      true⟩⟩ (by decide)
  exact ⟨⟨h1.1, h1.2.1, h1.2.2⟩, h5.2.2.2⟩

/- Selection succeeds whenever the candidate supply offers one usable
   hostname. -/
theorem rotationStep_good {g : String} {st : FetchState}
    (hg1 : ¬ g = "") (hg2 : g ∉ st.switcher.badInstances)
    (hg3 : st.switcher.usOnly = true → g ∉ usInstancesWithAgeRestricted) :
    ∃ st1, rotationStep [some g] st = some st1 := by
  simp only [rotationStep]
  by_cases hp : st.pagesUntilSwitch - 1 ≤ 0
  · rw [if_pos hp]
    have hcond : ¬(g = "" ∨ g ∈ st.switcher.badInstances ∨
        (st.switcher.usOnly = true ∧ g ∈ usInstancesWithAgeRestricted)) := by
      rintro (h1 | h2 | ⟨h3, h4⟩)
      · exact hg1 h1
      · exact hg2 h2
      · exact hg3 h3 h4
    simp only [switcher_new, if_neg hcond]
    exact ⟨_, rfl⟩
  · rw [if_neg hp]
    exact ⟨_, rfl⟩

/- The crawl over a clean finite timeline: from any loop state whose
   cursor addresses page k and whose switcher state is main's
   configuration, the remaining crawl yields exactly the items of pages
   k, k+1, ..., N-1 in order, using one fuel unit per page. -/
theorem fetch_clean_loop
    (pages : List (List TweetItem)) (cursorOf : Nat → String)
    (server : String → String → PageFetch) (g : String)
    (hg1 : g ≠ "") (hg2 : g ∉ initialBadInstances)
    (hg3 : g ∉ usInstancesWithAgeRestricted)
    (hserver : ∀ (inst : String) (k : Nat) (hk : k < pages.length),
      server inst (cursorOf k) = PageFetch.page false (pages.get ⟨k, hk⟩)
        (if k + 1 < pages.length then some (cursorOf (k + 1)) else none)) :
    ∀ (m k : Nat) (st : FetchState),
      k + m = pages.length → 0 < m →
      st.cursor = cursorOf k →
      st.switcher.badInstances = initialBadInstances →
      st.switcher.usOnly = true →
      fetch_tweet_elements [some g] server FetchSource.MEDIA false m st
        = some ((pages.drop k).flatten) := by
  intro m
  induction m with
  | zero =>
    intro k st hkm h0
    exact absurd h0 (by omega)
  | succ m ih =>
    intro k st hkm _ hcur hbad hus
    have hk : k < pages.length := by omega
    obtain ⟨st1, hrot⟩ := rotationStep_good hg1 (hbad ▸ hg2) (fun _ => hg3)
    have hs := rotationStep_spec hrot
    have hcur1 : st1.cursor = cursorOf k := by rw [hs.1, hcur]
    have hserv := hserver st1.instanceUrl k hk
    by_cases hnext : k + 1 < pages.length
    · rw [if_pos hnext] at hserv
      have hstep : fetchStep [some g] server FetchSource.MEDIA st
          = StepResult.emit (pages.get ⟨k, hk⟩)
              { st1 with cursor := cursorOf (k + 1) } false := by
        simp only [fetchStep, hrot, hcur1, hserv]
        simp
      have hm0 : 0 < m := by omega
      have hrec := ih (k + 1) { st1 with cursor := cursorOf (k + 1) }
        (by omega) hm0 rfl
        (by show st1.switcher.badInstances = initialBadInstances
            rw [hs.2.1, hbad])
        (by show st1.switcher.usOnly = true
            rw [hs.2.2.1, hus])
      simp only [fetch_tweet_elements, Bool.false_eq_true, false_and, if_false, hstep, hrec]
      rw [List.drop_eq_getElem_cons hk, List.flatten_cons]
      rfl
    · rw [if_neg hnext] at hserv
      have hstep : fetchStep [some g] server FetchSource.MEDIA st
          = StepResult.emit (pages.get ⟨k, hk⟩) st1 true := by
        simp only [fetchStep, hrot, hcur1, hserv]
        simp
      have hlen : k + 1 = pages.length := by omega
      simp only [fetch_tweet_elements, Bool.false_eq_true, false_and, if_false, hstep]
      rw [List.drop_eq_getElem_cons hk, List.flatten_cons, hlen, List.drop_length]
      simp

/-- Claim C8: over a finite clean mirror timeline of N > 0 pages —
page k addressed by cursorOf k, the first page by the empty cursor, each
page linking to the next and the last carrying no "show more" link — the
crawl started from main's initial state terminates within N iterations
and yields exactly the concatenation of all pages' tweet elements in
order: no page is repeated or skipped and no infinite loop occurs. -/
theorem c8_pagination_terminates
    (pages : List (List TweetItem)) (cursorOf : Nat → String)
    (server : String → String → PageFetch) (g : String)
    (hN : 0 < pages.length)
    (hc0 : cursorOf 0 = "")
    (hg1 : g ≠ "") (hg2 : g ∉ initialBadInstances)
    (hg3 : g ∉ usInstancesWithAgeRestricted)
    (hserver : ∀ (inst : String) (k : Nat) (hk : k < pages.length),
      server inst (cursorOf k) = PageFetch.page false (pages.get ⟨k, hk⟩)
        (if k + 1 < pages.length then some (cursorOf (k + 1)) else none)) :
    fetch_tweet_elements [some g] server FetchSource.MEDIA false pages.length
      initialFetchState = some pages.flatten := by
  have h := fetch_clean_loop pages cursorOf server g hg1 hg2 hg3 hserver
    pages.length 0 initialFetchState (by omega) hN
    (by show ("" : String) = cursorOf 0; rw [hc0]) rfl rfl
  simpa using h

/-- Witness for C8: a concrete two-page timeline (items 1 and 2, second
page addressed by cursor c1 and carrying no further link) is crawled to
completion with fuel 2, yielding both items in order. -/
theorem c8_pagination_terminates_witness :
    fetch_tweet_elements [some "mirrorhost"]
      (fun _ c => if c = "" then PageFetch.page false [⟨1, false⟩] (some "c1")
                  else PageFetch.page false [⟨2, false⟩] none)
      FetchSource.MEDIA false 2 initialFetchState
      = some [⟨1, false⟩, ⟨2, false⟩] := by
  have h := c8_pagination_terminates [[⟨1, false⟩], [⟨2, false⟩]]
    (fun k => if k = 0 then "" else "c1")
    (fun _ c => if c = "" then PageFetch.page false [⟨1, false⟩] (some "c1")
                else PageFetch.page false [⟨2, false⟩] none)
    "mirrorhost" (by decide) rfl (by decide) (by decide) (by decide)
    (by
      intro inst k hk
      match k with
      | 0 => rfl
      | 1 => rfl
      | n + 2 => exact absurd hk (by simp only [List.length_cons, List.length_nil]; omega))
  simpa using h
